import Mathlib

/-!
Shallow embedding of `src/postprocessing/manual_correction/src/PdfLayoutViewer.tsx`
(the `PDFLayoutViewer` React component) and of its caller `App`.

Modelling conventions:
* JavaScript numbers are modelled as rationals (`ℚ`): every arithmetic
  operation the component performs (addition, subtraction, halving) is exact
  on the inputs it receives, so no floating-point rounding is observable.
* The component's `useState` cells become the fields of `ViewerState`.
* DOM/React specifics (refs, canvas 2D drawing, CSS) are outside the state
  the claims speak about; pointer coordinates are taken as already translated
  to canvas coordinates (`e.clientX - rect.left`). The canvas ref is assumed
  present when a pointer handler runs, since the handlers are attached to the
  canvas element itself.
* A fetch with a non-success HTTP status is `FetchOutcome.httpFailure`
  (the code throws `new Error(...)` for `!response.ok`, which the enclosing
  `try/catch` turns into `setError(message)`).
* `bbox` is typed `number[]` in TS but the component destructures exactly
  four entries `[x0, y0, x1, y1]`; we model it as a 4-tuple of rationals.
* Only the fields of the JSON payload that the component reads are modelled
  (`pdf_info`, and each page's `preproc_blocks`); `preproc_blocks` is an
  `Option` because the code guards on its truthiness
  (`if (jd001.preproc_blocks)`).
-/

/-- The ten drag modes of the TS `enum DragMode`. -/
inductive DragMode
  | None
  | Move
  | ResizeTop
  | ResizeRight
  | ResizeBottom
  | ResizeLeft
  | ResizeTopLeft
  | ResizeTopRight
  | ResizeBottomLeft
  | ResizeBottomRight
deriving DecidableEq, Repr

/-- TS `interface DraggableRect`. -/
structure DraggableRect where
  id : String
  x : ℚ
  y : ℚ
  width : ℚ
  height : ℚ
  color : String
  type : String
deriving DecidableEq, Repr

/-- TS `interface Block`, restricted to the fields the component reads:
the type tag and the bounding box `[x0, y0, x1, y1]`. -/
structure Block where
  type : String
  bbox : ℚ × ℚ × ℚ × ℚ
deriving DecidableEq, Repr

/-- TS `interface PageInfo`, restricted to the field the component reads.
`none` models an absent/falsy `preproc_blocks` (in JS an array, even empty,
is truthy; only `undefined`/`null` are falsy here). -/
structure PageInfo where
  preproc_blocks : Option (List Block)
deriving DecidableEq, Repr

/-- TS `interface JsonData`, restricted to the field the component reads. -/
structure JsonData where
  pdf_info : List PageInfo
deriving DecidableEq, Repr

/-- All `useState` cells of `PDFLayoutViewer`, in declaration order
(image dimensions are omitted: they only feed CSS sizing). -/
structure ViewerState where
  pageNumber : ℤ
  jsonData : Option JsonData
  imageUrl : Option String
  loading : Bool
  error : Option String
  rectangles : List DraggableRect
  dragMode : DragMode
  draggedRectId : Option String
  lastMousePos : ℚ × ℚ
deriving DecidableEq, Repr

/-- Outcome of one `fetch` as the component observes it: a successful
response carrying its payload, or a non-success status
(`!response.ok`, which the code converts into a thrown `Error`). -/
inductive FetchOutcome (α : Type)
  | success (payload : α)
  | httpFailure
deriving DecidableEq, Repr

/-- The `loadFiles` async closure inside the first `useEffect`.
The two fetches are sequential: the JSON response is fetched, checked and
applied to state first; only then is the image fetched. The `catch` block
sets the error message and clears the loading flag. -/
def loadFiles (s : ViewerState) (jsonResp : FetchOutcome JsonData)
    (imageResp : FetchOutcome String) : ViewerState :=
  let s1 := { s with loading := true }
  match jsonResp with
  | FetchOutcome.httpFailure =>
      { s1 with error := some "Failed to load JSON file", loading := false }
  | FetchOutcome.success jd =>
      let s2 := { s1 with jsonData := some jd }
      match imageResp with
      | FetchOutcome.httpFailure =>
          { s2 with error := some "Failed to load image file", loading := false }
      | FetchOutcome.success url =>
          { s2 with imageUrl := some url, loading := false }

/-- The `categoryColors` object literal, as the lookup
`categoryColors[t]` (missing key ⇒ `none`, i.e. JS `undefined`). -/
def categoryColors (t : String) : Option String :=
  if t = "title" then some "black"
  else if t = "image" then some "blue"
  else if t = "text" then some "grey"
  else if t = "interline_equation" then some "green"
  else none

/-- The per-block body of `preproc_blocks.map` in the `[jsonData]` effect:
destructure the bbox, build the rectangle, colour it with
`categoryColors[block.type] || 'black'`. -/
def mkRect (index : Nat) (block : Block) : DraggableRect :=
  let x0 := block.bbox.1
  let y0 := block.bbox.2.1
  let x1 := block.bbox.2.2.1
  let y1 := block.bbox.2.2.2
  { id := "rect-" ++ toString index
    x := x0
    y := y0
    width := x1 - x0
    height := y1 - y0
    color := (categoryColors block.type).getD "black"
    type := block.type }

/-- The map `jd001.preproc_blocks.map((block, index) => ...)`. -/
def mkRectangles (blocks : List Block) : List DraggableRect :=
  blocks.enum.map (fun ib => mkRect ib.1 ib.2)

/-- Result of running the `[jsonData]` effect: either a next state, or the
TypeError the code would throw when `pdf_info` is empty
(`jsonData.pdf_info[0]` is `undefined` and `.preproc_blocks` is read on it). -/
inductive EffectResult
  | ok (s : ViewerState)
  | typeError
deriving DecidableEq, Repr

/-- The `useEffect` with dependency `[jsonData]`: when JSON data is present,
take the first page entry and, if its `preproc_blocks` is truthy, replace the
whole rectangle list with the freshly derived one. -/
def applyJsonDataEffect (s : ViewerState) : EffectResult :=
  match s.jsonData with
  | none => EffectResult.ok s
  | some jd =>
      match jd.pdf_info.head? with
      | none => EffectResult.typeError
      | some jd001 =>
          match jd001.preproc_blocks with
          | none => EffectResult.ok s
          | some blocks =>
              EffectResult.ok { s with rectangles := mkRectangles blocks }

/-- The per-rectangle hit-test predicate inside `rectangles.find` of
`handleMouseDown`, including the drag mode its side effect selects:
the eight `if` tests for the handles (tolerance `handleSize = 8` on each
axis), then body containment. -/
def hitTestRect (x y : ℚ) (r : DraggableRect) : Option DragMode :=
  if |x - r.x| ≤ 8 ∧ |y - r.y| ≤ 8 then
    some DragMode.ResizeTopLeft
  else if |x - (r.x + r.width)| ≤ 8 ∧ |y - r.y| ≤ 8 then
    some DragMode.ResizeTopRight
  else if |x - r.x| ≤ 8 ∧ |y - (r.y + r.height)| ≤ 8 then
    some DragMode.ResizeBottomLeft
  else if |x - (r.x + r.width)| ≤ 8 ∧ |y - (r.y + r.height)| ≤ 8 then
    some DragMode.ResizeBottomRight
  else if |x - (r.x + r.width / 2)| ≤ 8 ∧ |y - r.y| ≤ 8 then
    some DragMode.ResizeTop
  else if |x - (r.x + r.width)| ≤ 8 ∧ |y - (r.y + r.height / 2)| ≤ 8 then
    some DragMode.ResizeRight
  else if |x - (r.x + r.width / 2)| ≤ 8 ∧ |y - (r.y + r.height)| ≤ 8 then
    some DragMode.ResizeBottom
  else if |x - r.x| ≤ 8 ∧ |y - (r.y + r.height / 2)| ≤ 8 then
    some DragMode.ResizeLeft
  else if r.x ≤ x ∧ x ≤ r.x + r.width ∧ r.y ≤ y ∧ y ≤ r.y + r.height then
    some DragMode.Move
  else
    none

/-- The call `rectangles.find(...)` in `handleMouseDown`: first rectangle in list
order with a hit, paired with the drag mode the hit selects. -/
def findClicked (x y : ℚ) : List DraggableRect → Option (DraggableRect × DragMode)
  | [] => none
  | r :: rs =>
      match hitTestRect x y r with
      | some m => some (r, m)
      | none => findClicked x y rs

/-- Handler `handleMouseDown`, at canvas coordinates `(x, y)`: on a hit, record the
drag mode, the clicked rectangle's id and the pointer position; otherwise
leave the state unchanged. -/
def handleMouseDown (s : ViewerState) (x y : ℚ) : ViewerState :=
  match findClicked x y s.rectangles with
  | some rm =>
      { s with dragMode := rm.2, draggedRectId := some rm.1.id,
               lastMousePos := (x, y) }
  | none => s

/-- The body of `prevRects.map` in `handleMouseMove`: the rectangle whose id
matches the dragged id is updated according to the drag mode; every other
rectangle is returned unchanged. -/
def applyDragTo (mode : DragMode) (rid : String) (dx dy : ℚ)
    (r : DraggableRect) : DraggableRect :=
  if r.id ≠ rid then r
  else
    match mode with
    | DragMode.Move =>
        { r with x := r.x + dx, y := r.y + dy }
    | DragMode.ResizeTop =>
        { r with y := r.y + dy, height := r.height - dy }
    | DragMode.ResizeRight =>
        { r with width := r.width + dx }
    | DragMode.ResizeBottom =>
        { r with height := r.height + dy }
    | DragMode.ResizeLeft =>
        { r with x := r.x + dx, width := r.width - dx }
    | DragMode.ResizeTopLeft =>
        { r with x := r.x + dx, y := r.y + dy,
                 width := r.width - dx, height := r.height - dy }
    | DragMode.ResizeTopRight =>
        { r with y := r.y + dy, width := r.width + dx, height := r.height - dy }
    | DragMode.ResizeBottomLeft =>
        { r with x := r.x + dx, width := r.width - dx, height := r.height + dy }
    | DragMode.ResizeBottomRight =>
        { r with width := r.width + dx, height := r.height + dy }
    | DragMode.None => r

/-- Handler `handleMouseMove`, at canvas coordinates `(x, y)`. The first line of the
handler is `if (dragMode === DragMode.None || !draggedRectId) return;`: with
no active drag the handler returns before touching any state, including
`lastMousePos`. Otherwise it applies the delta from the last pointer
position to the dragged rectangle and then stores the current position. -/
def handleMouseMove (s : ViewerState) (x y : ℚ) : ViewerState :=
  match s.draggedRectId with
  | none => s
  | some rid =>
      if s.dragMode = DragMode.None then s
      else
        let dx := x - s.lastMousePos.1
        let dy := y - s.lastMousePos.2
        { s with
            rectangles := s.rectangles.map (applyDragTo s.dragMode rid dx dy),
            lastMousePos := (x, y) }

/-- Handler `handleMouseUp` (also used for `onMouseLeave`): end the gesture. -/
def handleMouseUp (s : ViewerState) : ViewerState :=
  { s with dragMode := DragMode.None, draggedRectId := none }

/-- Handler `handlePreviousPage`: `setPageNumber(prev => Math.max(0, prev - 1))`. -/
def handlePreviousPage (s : ViewerState) : ViewerState :=
  { s with pageNumber := max 0 (s.pageNumber - 1) }

/-- Handler `handleNextPage`: `setPageNumber(prev => prev + 1)`. -/
def handleNextPage (s : ViewerState) : ViewerState :=
  { s with pageNumber := s.pageNumber + 1 }

/-- The `disabled` attribute of the Previous Page button:
`disabled={pageNumber <= 0}`. -/
def prevButtonDisabled (s : ViewerState) : Bool :=
  decide (s.pageNumber ≤ 0)

/-- The `disabled` attribute of the Next Page button: `disabled={false}`. -/
def nextButtonDisabled (_s : ViewerState) : Bool :=
  false

/-- What the component returns from its render body, abstracted to the three
mutually exclusive top-level branches: the loading placeholder, the error
div, or the page view (image plus navigation buttons). -/
inductive RenderView
  | loadingView
  | errorView (msg : String)
  | pageView (imageUrl : Option String) (pageNumber : ℤ)
      (prevDisabled : Bool) (nextDisabled : Bool)
deriving DecidableEq, Repr

/-- The render body: `if (loading) ...; if (error) ...;` then the page. -/
def renderView (s : ViewerState) : RenderView :=
  if s.loading then RenderView.loadingView
  else
    match s.error with
    | some msg => RenderView.errorView msg
    | none =>
        RenderView.pageView s.imageUrl s.pageNumber
          (prevButtonDisabled s) (nextButtonDisabled s)

/-- The initial state of the component as mounted by `App`
(`initialPageNumber = 1`, every other cell at its `useState` default). -/
def initState : ViewerState :=
  { pageNumber := 1
    jsonData := none
    imageUrl := none
    loading := true
    error := none
    rectangles := []
    dragMode := DragMode.None
    draggedRectId := none
    lastMousePos := (0, 0) }

/-- A sample text block, `{bbox: [10, 20, 110, 70], type: "text"}`. -/
def sampleBlock : Block :=
  { type := "text", bbox := (10, 20, 110, 70) }

/-- A page entry carrying `sampleBlock` as its only preprocessed block. -/
def samplePage : PageInfo :=
  { preproc_blocks := some [sampleBlock] }

/-- A layout document whose only page entry is `samplePage`. -/
def sampleJd : JsonData :=
  { pdf_info := [samplePage] }

/-- State after a successful load of `sampleJd`. -/
def wLoadedState : ViewerState :=
  { initState with jsonData := some sampleJd, loading := false }

/-- A mid-gesture state: two rectangles (the rectangle derived from the
sample text block, and a title rectangle), a resize-top-left drag active on
`rect-0`, last pointer at the rectangle's top-left corner `(10, 20)`. -/
def dragState5 : ViewerState :=
  { initState with
      loading := false
      rectangles :=
        [{ id := "rect-0", x := 10, y := 20, width := 100, height := 50,
           color := "grey", type := "text" },
         { id := "rect-1", x := 200, y := 200, width := 30, height := 30,
           color := "black", type := "title" }]
      dragMode := DragMode.ResizeTopLeft
      draggedRectId := some "rect-0"
      lastMousePos := (10, 20) }

/-- Same mid-gesture state as `dragState5` but with a move drag active. -/
def dragState6 : ViewerState :=
  { dragState5 with dragMode := DragMode.Move }

/-- A page entry with no `preproc_blocks`. -/
def emptyPage : PageInfo := { preproc_blocks := none }

/-- A document whose only page entry lacks `preproc_blocks`. -/
def emptyJd : JsonData := { pdf_info := [emptyPage] }

/-- A state holding an edited rectangle and the block-less document. -/
def wEditedState : ViewerState :=
  { initState with
      loading := false
      jsonData := some emptyJd
      rectangles :=
        [{ id := "rect-0", x := 5, y := 6, width := 7, height := 8,
           color := "grey", type := "text" }] }

/-! Spec-side formulation of hit-testing, written from the specification's
words: a fixed precedence list (corners, then edge midpoints, then body),
a geometric test for each mode with an 8 px tolerance per axis, the first
matching mode within a rectangle, and the first matching rectangle in list
order. The theorem for claim C2 proves the code-side `findClicked` equal to
this formulation. -/

/-- Spec-side precedence order: the four corner handles, then the four
edge-midpoint handles, then containment in the body. -/
def specHitPrecedence : List DragMode :=
  [DragMode.ResizeTopLeft, DragMode.ResizeTopRight,
   DragMode.ResizeBottomLeft, DragMode.ResizeBottomRight,
   DragMode.ResizeTop, DragMode.ResizeRight,
   DragMode.ResizeBottom, DragMode.ResizeLeft,
   DragMode.Move]

/-- Spec-side geometric test of a single mode for rectangle `r` at pointer
`(x, y)`: each handle uses the fixed 8 px tolerance on both axes around its
centre; `Move` is containment in the body; `None` never matches. -/
def specModeTest (x y : ℚ) (r : DraggableRect) : DragMode → Bool
  | DragMode.ResizeTopLeft =>
      decide (|x - r.x| ≤ 8 ∧ |y - r.y| ≤ 8)
  | DragMode.ResizeTopRight =>
      decide (|x - (r.x + r.width)| ≤ 8 ∧ |y - r.y| ≤ 8)
  | DragMode.ResizeBottomLeft =>
      decide (|x - r.x| ≤ 8 ∧ |y - (r.y + r.height)| ≤ 8)
  | DragMode.ResizeBottomRight =>
      decide (|x - (r.x + r.width)| ≤ 8 ∧ |y - (r.y + r.height)| ≤ 8)
  | DragMode.ResizeTop =>
      decide (|x - (r.x + r.width / 2)| ≤ 8 ∧ |y - r.y| ≤ 8)
  | DragMode.ResizeRight =>
      decide (|x - (r.x + r.width)| ≤ 8 ∧ |y - (r.y + r.height / 2)| ≤ 8)
  | DragMode.ResizeBottom =>
      decide (|x - (r.x + r.width / 2)| ≤ 8 ∧ |y - (r.y + r.height)| ≤ 8)
  | DragMode.ResizeLeft =>
      decide (|x - r.x| ≤ 8 ∧ |y - (r.y + r.height / 2)| ≤ 8)
  | DragMode.Move =>
      decide (r.x ≤ x ∧ x ≤ r.x + r.width ∧ r.y ≤ y ∧ y ≤ r.y + r.height)
  | DragMode.None => false

/-- Spec-side mode selection for one rectangle: the first mode in the
precedence list whose geometric test matches. -/
def specRectMode (x y : ℚ) (r : DraggableRect) : Option DragMode :=
  specHitPrecedence.find? (specModeTest x y r)

/-- Spec-side winner selection: the first rectangle in list order with any
matching mode, paired with its first matching mode. -/
def specFindClicked (x y : ℚ) :
    List DraggableRect → Option (DraggableRect × DragMode)
  | [] => none
  | r :: rs =>
      match specRectMode x y r with
      | some m => some (r, m)
      | none => specFindClicked x y rs

/-- Per-rectangle hit test agrees with the spec-side precedence search. -/
theorem hitTestRect_eq_specRectMode (x y : ℚ) (r : DraggableRect) :
    hitTestRect x y r = specRectMode x y r := by
  unfold hitTestRect specRectMode specHitPrecedence
  by_cases h1 : |x - r.x| ≤ 8 ∧ |y - r.y| ≤ 8
  · rw [if_pos h1, List.find?_cons_of_pos _ (by simp [specModeTest, h1])]
  rw [if_neg h1, List.find?_cons_of_neg _ (by simp [specModeTest, h1])]
  by_cases h2 : |x - (r.x + r.width)| ≤ 8 ∧ |y - r.y| ≤ 8
  · rw [if_pos h2, List.find?_cons_of_pos _ (by simp [specModeTest, h2])]
  rw [if_neg h2, List.find?_cons_of_neg _ (by simp [specModeTest, h2])]
  by_cases h3 : |x - r.x| ≤ 8 ∧ |y - (r.y + r.height)| ≤ 8
  · rw [if_pos h3, List.find?_cons_of_pos _ (by simp [specModeTest, h3])]
  rw [if_neg h3, List.find?_cons_of_neg _ (by simp [specModeTest, h3])]
  by_cases h4 : |x - (r.x + r.width)| ≤ 8 ∧ |y - (r.y + r.height)| ≤ 8
  · rw [if_pos h4, List.find?_cons_of_pos _ (by simp [specModeTest, h4])]
  rw [if_neg h4, List.find?_cons_of_neg _ (by simp [specModeTest, h4])]
  by_cases h5 : |x - (r.x + r.width / 2)| ≤ 8 ∧ |y - r.y| ≤ 8
  · rw [if_pos h5, List.find?_cons_of_pos _ (by simp [specModeTest, h5])]
  rw [if_neg h5, List.find?_cons_of_neg _ (by simp [specModeTest, h5])]
  by_cases h6 : |x - (r.x + r.width)| ≤ 8 ∧ |y - (r.y + r.height / 2)| ≤ 8
  · rw [if_pos h6, List.find?_cons_of_pos _ (by simp [specModeTest, h6])]
  rw [if_neg h6, List.find?_cons_of_neg _ (by simp [specModeTest, h6])]
  by_cases h7 : |x - (r.x + r.width / 2)| ≤ 8 ∧ |y - (r.y + r.height)| ≤ 8
  · rw [if_pos h7, List.find?_cons_of_pos _ (by simp [specModeTest, h7])]
  rw [if_neg h7, List.find?_cons_of_neg _ (by simp [specModeTest, h7])]
  by_cases h8 : |x - r.x| ≤ 8 ∧ |y - (r.y + r.height / 2)| ≤ 8
  · rw [if_pos h8, List.find?_cons_of_pos _ (by simp [specModeTest, h8])]
  rw [if_neg h8, List.find?_cons_of_neg _ (by simp [specModeTest, h8])]
  by_cases h9 : r.x ≤ x ∧ x ≤ r.x + r.width ∧ r.y ≤ y ∧ y ≤ r.y + r.height
  · rw [if_pos h9, List.find?_cons_of_pos _ (by simp [specModeTest, h9])]
  rw [if_neg h9, List.find?_cons_of_neg _ (by simp [specModeTest, h9])]
  rfl

/-- Claim C2: for every pointer-down position and rectangle list,
hit-testing evaluates the rectangles in list order, and within each
rectangle tests the four corner handles, then the four edge-midpoint
handles, then body containment, each handle with the fixed 8 px tolerance;
the winner is the first rectangle in list order whose handle or body
matches, its mode being the first match in that precedence order. -/
theorem C2_hit_testing_precedence (x y : ℚ) (rects : List DraggableRect) :
    findClicked x y rects = specFindClicked x y rects := by
  induction rects with
  | nil => rfl
  | cons r rs ih =>
      show (match hitTestRect x y r with
            | some m => some (r, m)
            | none => findClicked x y rs)
          = (match specRectMode x y r with
            | some m => some (r, m)
            | none => specFindClicked x y rs)
      rw [hitTestRect_eq_specRectMode, ih]

/-- Claim C1 counterexample: with the image fetch failing and the JSON
fetch succeeding, the error state is surfaced, yet the JSON fetch's effect
HAS been applied to state (`jsonData` went from `none` to the fetched
document), contradicting "neither fetch's effect is applied to state". -/
theorem C1_counterexample :
    (loadFiles initState (FetchOutcome.success sampleJd)
        FetchOutcome.httpFailure).error = some "Failed to load image file"
    ∧ (loadFiles initState (FetchOutcome.success sampleJd)
        FetchOutcome.httpFailure).jsonData = some sampleJd
    ∧ initState.jsonData = none := by
  exact ⟨rfl, rfl, rfl⟩

/-- Claim C1 amended: a failing JSON fetch leaves both `jsonData` and
`imageUrl` untouched; a failing image fetch does NOT undo the JSON fetch's
effect — `jsonData` is already set before the image is fetched — and only
the image URL is withheld. In both cases a single error message is stored
and the loading flag is cleared. -/
theorem C1_amended (s : ViewerState) (jd : JsonData) (img : FetchOutcome String) :
    loadFiles s FetchOutcome.httpFailure img
      = { s with loading := false, error := some "Failed to load JSON file" }
    ∧ loadFiles s (FetchOutcome.success jd) FetchOutcome.httpFailure
      = { s with jsonData := some jd, loading := false,
                 error := some "Failed to load image file" } := by
  exact ⟨rfl, rfl⟩

/-- Claim C3 counterexample: a pointer-move while no drag is active
(`dragMode = None`, no selected rectangle) does NOT update the stored
last-pointer position: the handler returns early, so the position stays
`(0, 0)` instead of becoming the current pointer position `(5, 7)`. -/
theorem C3_counterexample :
    (handleMouseMove initState 5 7).lastMousePos = ((0 : ℚ), (0 : ℚ))
    ∧ ((0 : ℚ), (0 : ℚ)) ≠ ((5 : ℚ), (7 : ℚ))
    ∧ initState.lastMousePos = ((0 : ℚ), (0 : ℚ))
    ∧ initState.dragMode = DragMode.None := by
  refine ⟨rfl, ?_, rfl, rfl⟩
  norm_num [Prod.ext_iff]

/-- Claim C3 amended: the stored last-pointer position is updated to the
current pointer position only when a drag is active (drag mode not `None`
and a rectangle selected); when no drag is active the handler returns early
and the whole state, the last-pointer position included, is unchanged. -/
theorem C3_amended (s : ViewerState) (x y : ℚ) :
    (handleMouseMove s x y).lastMousePos
      = (if s.dragMode = DragMode.None ∨ s.draggedRectId = none
         then s.lastMousePos else (x, y))
    ∧ ((s.dragMode = DragMode.None ∨ s.draggedRectId = none) →
        handleMouseMove s x y = s) := by
  unfold handleMouseMove
  cases hid : s.draggedRectId with
  | none => simp
  | some rid =>
      by_cases hm : s.dragMode = DragMode.None <;> simp [hm]

/-- Claim C3 amended, witness: with no drag active (`initState` has
drag mode `None`), a pointer-move leaves the whole state unchanged; with an
active move drag (`dragState6`), the last-pointer position is updated. -/
theorem C3_amended_witness :
    (initState.dragMode = DragMode.None ∨ initState.draggedRectId = none)
    ∧ handleMouseMove initState 5 7 = initState
    ∧ (handleMouseMove dragState6 5 7).lastMousePos
        = (if dragState6.dragMode = DragMode.None
              ∨ dragState6.draggedRectId = none
           then dragState6.lastMousePos else (5, 7)) :=
  ⟨Or.inl rfl, (C3_amended initState 5 7).2 (Or.inl rfl),
   (C3_amended dragState6 5 7).1⟩

/-- Claim C7 counterexample: the two load-failure kinds are displayed with
different messages — a JSON failure renders "Failed to load JSON file", an
image failure renders "Failed to load image file" — so the surfaced error
does distinguish which fetch failed. -/
theorem C7_counterexample :
    renderView (loadFiles initState FetchOutcome.httpFailure
        FetchOutcome.httpFailure)
      = RenderView.errorView "Failed to load JSON file"
    ∧ renderView (loadFiles initState (FetchOutcome.success sampleJd)
        FetchOutcome.httpFailure)
      = RenderView.errorView "Failed to load image file"
    ∧ "Failed to load JSON file" ≠ "Failed to load image file" := by
  refine ⟨rfl, rfl, ?_⟩
  decide

/-- Claim C7 amended: both failure kinds surface through the same single
error state and the identical error render branch, but the displayed
message text differs and names the failing fetch. -/
theorem C7_amended (s : ViewerState) (jd : JsonData) (img : FetchOutcome String) :
    renderView (loadFiles s FetchOutcome.httpFailure img)
      = RenderView.errorView "Failed to load JSON file"
    ∧ renderView (loadFiles s (FetchOutcome.success jd) FetchOutcome.httpFailure)
      = RenderView.errorView "Failed to load image file" := by
  exact ⟨rfl, rfl⟩

/-- Claim C8: Previous is disabled exactly when the page number is at the
floor, is a no-op at page 0, and never takes the page number below 0;
Next is never disabled and always increments the page number by 1. -/
theorem C8_page_navigation (s : ViewerState) (h : s.pageNumber = 0) :
    prevButtonDisabled s = true
    ∧ handlePreviousPage s = s
    ∧ (∀ t : ViewerState, 0 ≤ (handlePreviousPage t).pageNumber
        ∧ (handleNextPage t).pageNumber = t.pageNumber + 1
        ∧ nextButtonDisabled t = false) := by
  refine ⟨by simp [prevButtonDisabled, h], ?_, fun t => ⟨le_max_left 0 _, rfl, rfl⟩⟩
  unfold handlePreviousPage
  have hmax : max 0 (s.pageNumber - 1) = s.pageNumber := by
    rw [h]
    decide
  rw [hmax]

/-- Claim C8 witness: at page 0 the Previous button is disabled and firing
it leaves the state unchanged; Next increments. -/
theorem C8_witness :
    prevButtonDisabled { initState with pageNumber := 0 } = true
    ∧ handlePreviousPage { initState with pageNumber := 0 }
        = { initState with pageNumber := 0 }
    ∧ (∀ t : ViewerState, 0 ≤ (handlePreviousPage t).pageNumber
        ∧ (handleNextPage t).pageNumber = t.pageNumber + 1
        ∧ nextButtonDisabled t = false) := by
  exact C8_page_navigation { initState with pageNumber := 0 } rfl

/-- Claim C4: when a loaded document's first page entry has blocks, the
live rectangle set is replaced entirely by the list derived from those
blocks — independent of the previous rectangles — and its length equals
the block count. -/
theorem C4_rectangles_replaced (s : ViewerState) (jd : JsonData) (p : PageInfo)
    (rest : List PageInfo) (blocks : List Block)
    (h0 : s.jsonData = some jd) (h1 : jd.pdf_info = p :: rest)
    (h2 : p.preproc_blocks = some blocks) :
    applyJsonDataEffect s
        = EffectResult.ok { s with rectangles := mkRectangles blocks }
    ∧ (mkRectangles blocks).length = blocks.length := by
  constructor
  · simp [applyJsonDataEffect, h0, h1, h2]
  · simp [mkRectangles]

/-- Claim C4 witness: loading the sample document replaces the rectangle
set with the one derived from its single block. -/
theorem C4_witness :
    applyJsonDataEffect wLoadedState
        = EffectResult.ok
            { wLoadedState with rectangles := mkRectangles [sampleBlock] }
    ∧ (mkRectangles [sampleBlock]).length = [sampleBlock].length :=
  C4_rectangles_replaced wLoadedState sampleJd samplePage [] [sampleBlock]
    rfl rfl rfl

/-- Claim C5: an active resize-top-left drag with pointer delta `(dx, dy)`
changes the dragged rectangle's x by dx, y by dy, width by −dx and height
by −dy (the combination of the top-edge and left-edge behaviours), with no
clamping: the equations hold for every delta, negative results included,
and every other rectangle is returned unchanged. -/
theorem C5_resize_top_left (s : ViewerState) (x y : ℚ) (rid : String)
    (hm : s.dragMode = DragMode.ResizeTopLeft)
    (hid : s.draggedRectId = some rid) :
    (handleMouseMove s x y).rectangles
      = s.rectangles.map (fun r =>
          if r.id = rid then
            { r with
                x := r.x + (x - s.lastMousePos.1),
                y := r.y + (y - s.lastMousePos.2),
                width := r.width - (x - s.lastMousePos.1),
                height := r.height - (y - s.lastMousePos.2) }
          else r) := by
  have key : handleMouseMove s x y
      = { s with
            rectangles := s.rectangles.map (applyDragTo DragMode.ResizeTopLeft
              rid (x - s.lastMousePos.1) (y - s.lastMousePos.2)),
            lastMousePos := (x, y) } := by
    simp only [handleMouseMove, hid, hm]
    rw [if_neg (by decide : ¬(DragMode.ResizeTopLeft = DragMode.None))]
  rw [key]
  show s.rectangles.map (applyDragTo DragMode.ResizeTopLeft rid
      (x - s.lastMousePos.1) (y - s.lastMousePos.2)) = _
  congr 1
  funext r
  by_cases h : r.id = rid <;> simp [applyDragTo, h]

/-- Claim C5 witness: dragging to `(150, 25)` gives delta `(140, 5)`; the
dragged rectangle's width becomes `100 − 140 = −40` — negative, so no
clamping — and the other rectangle's width stays `30`. -/
theorem C5_witness :
    dragState5.dragMode = DragMode.ResizeTopLeft
    ∧ dragState5.draggedRectId = some "rect-0"
    ∧ (handleMouseMove dragState5 150 25).rectangles
        = dragState5.rectangles.map (fun r =>
            if r.id = "rect-0" then
              { r with
                  x := r.x + (150 - dragState5.lastMousePos.1),
                  y := r.y + (25 - dragState5.lastMousePos.2),
                  width := r.width - (150 - dragState5.lastMousePos.1),
                  height := r.height - (25 - dragState5.lastMousePos.2) }
            else r)
    ∧ (handleMouseMove dragState5 150 25).rectangles.map
        (fun r => r.width) = [-40, 30] := by
  refine ⟨rfl, rfl, C5_resize_top_left dragState5 150 25 "rect-0" rfl rfl, ?_⟩
  rw [C5_resize_top_left dragState5 150 25 "rect-0" rfl rfl]
  norm_num [dragState5, initState]
  decide

/-- Claim C6: an active move drag with pointer delta `(dx, dy)` translates
exactly the dragged rectangle's x and y by the delta, leaves its width and
height unchanged, and returns every other rectangle unchanged. -/
theorem C6_move_translates (s : ViewerState) (x y : ℚ) (rid : String)
    (hm : s.dragMode = DragMode.Move)
    (hid : s.draggedRectId = some rid) :
    (handleMouseMove s x y).rectangles
      = s.rectangles.map (fun r =>
          if r.id = rid then
            { r with
                x := r.x + (x - s.lastMousePos.1),
                y := r.y + (y - s.lastMousePos.2) }
          else r) := by
  have key : handleMouseMove s x y
      = { s with
            rectangles := s.rectangles.map (applyDragTo DragMode.Move
              rid (x - s.lastMousePos.1) (y - s.lastMousePos.2)),
            lastMousePos := (x, y) } := by
    simp only [handleMouseMove, hid, hm]
    rw [if_neg (by decide : ¬(DragMode.Move = DragMode.None))]
  rw [key]
  show s.rectangles.map (applyDragTo DragMode.Move rid
      (x - s.lastMousePos.1) (y - s.lastMousePos.2)) = _
  congr 1
  funext r
  by_cases h : r.id = rid <;> simp [applyDragTo, h]

/-- Claim C6 witness: dragging to `(15, 27)` gives delta `(5, 7)`; the
dragged rectangle moves from `(10, 20)` to `(15, 27)` with size `100 × 50`
unchanged, and the other rectangle keeps all four coordinates. -/
theorem C6_witness :
    dragState6.dragMode = DragMode.Move
    ∧ dragState6.draggedRectId = some "rect-0"
    ∧ (handleMouseMove dragState6 15 27).rectangles
        = dragState6.rectangles.map (fun r =>
            if r.id = "rect-0" then
              { r with
                  x := r.x + (15 - dragState6.lastMousePos.1),
                  y := r.y + (27 - dragState6.lastMousePos.2) }
            else r)
    ∧ (handleMouseMove dragState6 15 27).rectangles.map
        (fun r => (r.x, r.y, r.width, r.height))
      = [(15, 27, 100, 50), (200, 200, 30, 30)] := by
  refine ⟨rfl, rfl, C6_move_translates dragState6 15 27 "rect-0" rfl rfl, ?_⟩
  rw [C6_move_translates dragState6 15 27 "rect-0" rfl rfl]
  norm_num [dragState6, dragState5, initState]
  decide

/-- Claim C9: a block whose type tag is none of title, image, text or
interline_equation gets colour "black" — the same colour as a title block,
so such rectangles render indistinguishably from title rectangles. -/
theorem C9_unknown_type_black (i j : Nat) (t : String) (bb bb2 : ℚ × ℚ × ℚ × ℚ)
    (h1 : t ≠ "title") (h2 : t ≠ "image") (h3 : t ≠ "text")
    (h4 : t ≠ "interline_equation") :
    (mkRect i { type := t, bbox := bb }).color = "black"
    ∧ (mkRect j { type := "title", bbox := bb2 }).color = "black" := by
  constructor
  · simp [mkRect, categoryColors, h1, h2, h3, h4]
  · simp [mkRect, categoryColors]

/-- Claim C9 witness: a "table" block (a tag outside the colour map) and a
"title" block both come out "black". -/
theorem C9_witness :
    (mkRect 0 { type := "table", bbox := ((0 : ℚ), 0, 0, 0) }).color = "black"
    ∧ (mkRect 0 { type := "title", bbox := ((0 : ℚ), 0, 0, 0) }).color
        = "black" :=
  C9_unknown_type_black 0 0 "table" ((0 : ℚ), 0, 0, 0) ((0 : ℚ), 0, 0, 0)
    (by decide) (by decide) (by decide) (by decide)

/-- Claim C10: when the loaded document's first page entry has no (falsy)
`preproc_blocks`, the effect leaves the whole state — the existing
rectangle list and any edits in it included — completely unchanged. -/
theorem C10_missing_blocks_keeps_rectangles (s : ViewerState) (jd : JsonData)
    (p : PageInfo) (rest : List PageInfo)
    (h0 : s.jsonData = some jd) (h1 : jd.pdf_info = p :: rest)
    (h2 : p.preproc_blocks = none) :
    applyJsonDataEffect s = EffectResult.ok s := by
  simp [applyJsonDataEffect, h0, h1, h2]

/-- Claim C10 witness: applying the effect with the block-less document
leaves the edited rectangle list untouched. -/
theorem C10_witness :
    applyJsonDataEffect wEditedState = EffectResult.ok wEditedState :=
  C10_missing_blocks_keeps_rectangles wEditedState emptyJd emptyPage [] rfl rfl rfl
